import Mathlib

/-!
# cowherd: discovery, exec negotiation and the terminal bridge

A shallow embedding of `main.go` of camronlevanger/cowherd.

* Text handled by the discovery code (endpoints, names, ids, messages) is a Lean `String`.
  The only characters the code inspects are `/`, `*` and `%`, all ASCII, so the byte-level
  operations of Go agree with the character-level operations used here.
* The payload of the terminal transport is raw bytes: a `List Nat` with values `0..255`.
* Calls into the outside world (HTTP, websocket, terminal, stdin) take their results from an
  explicit oracle argument and leave an `Event` in a trace.
-/

namespace Cowherd

deriving instance DecidableEq for Except

/-! ## Errors -/

/-- The error values the program distinguishes, by dynamic type or identity. -/
inductive GoError where
  /-- A `*websocket.CloseError` with its close code and text. -/
  | closeError (code : Int) (text : String)
  /-- The sentinel `websocket.ErrCloseSent`. -/
  | errCloseSent
  /-- An error whose type implements `net.Error`, with what `Timeout()` and `Temporary()` say. -/
  | netError (timeout temporary : Bool) (msg : String)
  /-- The `base64.CorruptInputError` (the offset it carries is not modelled). -/
  | corruptInput
  /-- Any other error (for instance `io.EOF`). -/
  | other (msg : String)
  deriving DecidableEq, Repr

/-- The constant `websocket.CloseNormalClosure`. -/
def CloseNormalClosure : Int := 1000

/-- The library test `websocket.IsCloseError(err, codes...)`: the error is a `*CloseError` whose
code is one of `codes`. -/
def IsCloseError (err : GoError) (codes : List Int) : Bool :=
  match err with
  | .closeError code _ => codes.contains code
  | _ => false

/-! ## base64.StdEncoding -/

/-- The alphabet of `base64.StdEncoding`, as byte values. -/
def encodeStd : List Nat :=
  "ABCDEFGHIJKLMNOPQRSTUVWXYZabcdefghijklmnopqrstuvwxyz0123456789+/".toList.map Char.toNat

/-- The padding character `=` of `base64.StdEncoding`. -/
def padChar : Nat := 61

/-- The lookup `enc.encode[i]`. -/
def encChar (i : Nat) : Nat := encodeStd.getD i 0

/-- The function `Encoding.Encode` of `base64.StdEncoding`: three bytes become four characters,
a remainder of one or two bytes is padded with `=`. -/
def Encode : List Nat → List Nat
  | b0 :: b1 :: b2 :: rest =>
    let val := b0 <<< 16 ||| b1 <<< 8 ||| b2
    encChar (val >>> 18 &&& 0x3F) :: encChar (val >>> 12 &&& 0x3F) ::
      encChar (val >>> 6 &&& 0x3F) :: encChar (val &&& 0x3F) :: Encode rest
  | [b0, b1] =>
    let val := b0 <<< 16 ||| b1 <<< 8
    [encChar (val >>> 18 &&& 0x3F), encChar (val >>> 12 &&& 0x3F),
      encChar (val >>> 6 &&& 0x3F), padChar]
  | [b0] =>
    let val := b0 <<< 16
    [encChar (val >>> 18 &&& 0x3F), encChar (val >>> 12 &&& 0x3F), padChar, padChar]
  | [] => []

/-- The call `base64.StdEncoding.EncodeToString(src)`. -/
def EncodeToString (src : List Nat) : List Nat := Encode src

/-- The table `enc.decodeMap`: the 6-bit value of an alphabet character, `none` for the
entries holding `0xff`. -/
def decodeMap (c : Nat) : Option Nat :=
  let i := encodeStd.indexOf c
  if i < 64 then some i else none

/-- Skips the newline characters `\n` and `\r`, as the decoder does around padding. -/
def skipNewlines : List Nat → List Nat
  | c :: rest => if c = 10 ∨ c = 13 then skipNewlines rest else c :: rest
  | [] => []

/-- The conversion of one quantum of `dlen = dbuf.length` six-bit values into `dlen - 1`
bytes (the non-strict mode of `StdEncoding`: trailing bits are not checked). -/
def emitQuantum (dbuf : List Nat) : List Nat :=
  let val := dbuf.getD 0 0 <<< 18 ||| dbuf.getD 1 0 <<< 12 ||| dbuf.getD 2 0 <<< 6 ||| dbuf.getD 3 0
  [val >>> 16 % 256, val >>> 8 % 256, val % 256].take (dbuf.length - 1)

/-- The decoding loop of `Encoding.Decode` with `decodeQuantum` inlined: `dbuf` holds the
six-bit values of the quantum being read (`j = dbuf.length`), `out` the bytes decoded so far. -/
def decodeLoop : List Nat → List Nat → List Nat → Except GoError (List Nat)
  | [], dbuf, out =>
    -- end of input: fine between quanta, corrupt inside one (padding is required)
    if dbuf.length = 0 then .ok out else .error .corruptInput
  | c :: rest, dbuf, out =>
    match decodeMap c with
    | some v =>
      if dbuf.length = 3 then decodeLoop rest [] (out ++ emitQuantum (dbuf ++ [v]))
      else decodeLoop rest (dbuf ++ [v]) out
    | none =>
      if c = 10 ∨ c = 13 then decodeLoop rest dbuf out
      else if c ≠ padChar then .error .corruptInput
      else
        -- the first padding character
        if dbuf.length < 2 then .error .corruptInput
        else if dbuf.length = 2 then
          -- "==" is expected
          match skipNewlines rest with
          | [] => .error .corruptInput
          | d :: rest2 =>
            if d ≠ padChar then .error .corruptInput
            else if skipNewlines rest2 ≠ [] then .error .corruptInput
            else .ok (out ++ emitQuantum dbuf)
        else
          if skipNewlines rest ≠ [] then .error .corruptInput
          else .ok (out ++ emitQuantum dbuf)

/-- The call `base64.StdEncoding.DecodeString(s)`; on an error the caller drops the bytes
decoded so far, so only the error is kept. -/
def DecodeString (s : List Nat) : Except GoError (List Nat) := decodeLoop s [] []

/-! ## The two stream loops of the bridge -/

/-- What one iteration of the outbound loop meets: the result of `os.Stdin.Read` into the
one-byte buffer, and, when a byte was read, the result of `WriteMessage`. -/
inductive KeyEvent where
  /-- The read of stdin failed with this error. -/
  | readErr (e : GoError)
  /-- The read delivered byte `b`; the send returned `sendErr` (`none` is success). -/
  | key (b : Nat) (sendErr : Option GoError)
  deriving DecidableEq, Repr

/-- What one iteration of the inbound loop meets: the result of `ReadMessage`. -/
inductive RecvEvent where
  /-- The receive failed with this error. -/
  | recvErr (e : GoError)
  /-- The receive delivered a frame with payload `raw`. -/
  | msg (raw : List Nat)
  deriving DecidableEq, Repr

/-- The branch of a loop that sent on `errChn`, with the error it met. -/
inductive Cause where
  | stdinRead (e : GoError)
  | send (e : GoError)
  | receive (e : GoError)
  | decode (e : GoError)
  deriving DecidableEq, Repr

/-- One value sent on `errChn`: `signal` is the value (`none` is Go's `nil`), `cause` records
the branch that sent it. -/
structure Completion where
  cause : Cause
  signal : Option GoError
  deriving DecidableEq, Repr

/-- The observable behaviour of `wsWrite` on a finite history: the frames handed to
`WriteMessage` that were sent, and the value put on `errChn` (`none`: the loop is still
blocked in `os.Stdin.Read`). -/
structure WriteLoop where
  sent : List (List Nat)
  completion : Option Completion
  deriving DecidableEq, Repr

/-- The observable behaviour of `wsRead` on a finite history: the slices written to stdout, and
the value put on `errChn` (`none`: the loop is still blocked in `ReadMessage`). -/
structure ReadLoop where
  stdout : List (List Nat)
  completion : Option Completion
  deriving DecidableEq, Repr

/-- The loop `WebTerm.wsWrite`. -/
def wsWrite : List KeyEvent → WriteLoop
  | [] => ⟨[], none⟩
  | .readErr e :: _ => ⟨[], some ⟨.stdinRead e, some e⟩⟩
  | .key b sendErr :: rest =>
    let payload := EncodeToString [b]
    match sendErr with
    | some e =>
      if IsCloseError e [CloseNormalClosure] then ⟨[], some ⟨.send e, none⟩⟩
      else ⟨[], some ⟨.send e, some e⟩⟩
    | none =>
      let r := wsWrite rest
      ⟨payload :: r.sent, r.completion⟩

/-- The loop `WebTerm.wsRead`. -/
def wsRead : List RecvEvent → ReadLoop
  | [] => ⟨[], none⟩
  | .recvErr e :: _ =>
    if IsCloseError e [CloseNormalClosure] then ⟨[], some ⟨.receive e, none⟩⟩
    else ⟨[], some ⟨.receive e, some e⟩⟩
  | .msg raw :: rest =>
    match DecodeString raw with
    | .error e => ⟨[], some ⟨.decode e, some e⟩⟩
    | .ok out =>
      let r := wsRead rest
      ⟨out :: r.stdout, r.completion⟩

/-! ## Effects: traces, faults and results -/

/-- The saved terminal mode that `terminal.MakeRaw` returns and `terminal.Restore` takes. -/
structure TermState where
  mode : Nat
  deriving DecidableEq, Repr

/-- The values of a URL query (`url.Values`), in the order they were added. -/
abbrev Values := List (String × String)

/-- What the program does to the outside world, in program order. -/
inductive Event where
  /-- The call `fmt.Println(s)`. -/
  | println (s : String)
  /-- The call `fmt.Print(s)`. -/
  | print (s : String)
  /-- The call `fmt.Scan(&choice)`: a read of operator input. -/
  | scan
  /-- An HTTP request handed to `makeReq`; `query` is the `RawQuery` the code set, if it set one. -/
  | request (method url : String) (query : Option Values) (body : String)
  /-- The call `websocket.DefaultDialer.Dial(url, header)` with its `Origin` header. -/
  | dial (url origin : String)
  /-- The call `terminal.MakeRaw`. -/
  | makeRaw
  /-- The receive `<-w.errChn` with the value received. -/
  | signal (v : Option GoError)
  /-- The call `terminal.Restore` with the state passed (`none` is a nil pointer). -/
  | restore (st : Option TermState)
  deriving DecidableEq, Repr

/-- The runtime faults of Go the code can raise. -/
inductive Fault where
  /-- A slice expression out of range. -/
  | sliceBounds
  /-- An index expression out of range: the index and the length. -/
  | indexOutOfRange (index : Int) (len : Nat)
  /-- A failed type assertion `x.(T)` (interface conversion). -/
  | typeAssertion
  /-- A nil pointer dereference. -/
  | nilDereference
  /-- An explicit `panic(err)`. -/
  | error (e : GoError)
  deriving DecidableEq, Repr

/-- How a call ends. -/
inductive Result (α : Type) where
  /-- The function returned `a`. -/
  | ret (a : α)
  /-- The process ended through `os.Exit(code)`. -/
  | exit (code : Nat)
  /-- The goroutine panicked. -/
  | panic (f : Fault)
  /-- The goroutine is blocked for good on the history given. -/
  | blocked
  deriving DecidableEq, Repr

/-- A computation of the program: the events it produced and how it ended. -/
structure Proc (α : Type) where
  trace : List Event
  result : Result α
  deriving DecidableEq, Repr

namespace Proc

/-- Normal return without effect. -/
def ret {α : Type} (a : α) : Proc α := ⟨[], .ret a⟩

/-- Sequencing: the second computation runs only when the first returned. -/
def andThen {α β : Type} (p : Proc α) (f : α → Proc β) : Proc β :=
  match p.result with
  | .ret a => ⟨p.trace ++ (f a).trace, (f a).result⟩
  | .exit c => ⟨p.trace, .exit c⟩
  | .panic x => ⟨p.trace, .panic x⟩
  | .blocked => ⟨p.trace, .blocked⟩

instance : Monad Proc where
  pure := ret
  bind := andThen

/-- One event. -/
def emit (e : Event) : Proc Unit := ⟨[e], .ret ()⟩

/-- The call `os.Exit(code)`. -/
def exit {α : Type} (code : Nat) : Proc α := ⟨[], .exit code⟩

/-- A runtime panic. -/
def panic {α : Type} (f : Fault) : Proc α := ⟨[], .panic f⟩

/-- A goroutine that never proceeds. -/
def block {α : Type} : Proc α := ⟨[], .blocked⟩

end Proc

/-- The exit status of the process when the main goroutine ends this way: 0 on return from
`main`, the code of `os.Exit`, 2 for an uncaught panic; none while it is blocked. -/
def exitStatus {α : Type} : Result α → Option Nat
  | .ret _ => some 0
  | .exit c => some c
  | .panic _ => some 2
  | .blocked => none

/-! ## Decoded JSON -/

/-- The values `json.Unmarshal` stores into an `interface{}`; an object is the finite map
`map[string]interface{}`, kept as an association list read with `List.lookup`. -/
inductive JSON where
  | null
  | bool (b : Bool)
  /-- A `float64`; the program never inspects one. -/
  | number (n : Int)
  | string (s : String)
  | array (xs : List JSON)
  | object (kvs : List (String × JSON))

/-- The Go type `map[string]interface{}`. -/
abbrev JMap := List (String × JSON)

/-- The type assertion `v.(string)` on the result of a map read. -/
def asString : Option JSON → Proc String
  | some (.string s) => pure s
  | _ => Proc.panic .typeAssertion

/-- The type assertion `v.(map[string]interface{})` on the result of a map read. -/
def asObject : Option JSON → Proc JMap
  | some (.object m) => pure m
  | _ => Proc.panic .typeAssertion

/-- The type assertion `v.([]interface{})` on the result of a map read. -/
def asArray : Option JSON → Proc (List JSON)
  | some (.array xs) => pure xs
  | _ => Proc.panic .typeAssertion

/-- The index expression `xs[i]` with its bounds check. -/
def indexAt (xs : List JSON) (i : Int) : Proc JSON :=
  if 0 ≤ i then
    match xs.get? i.toNat with
    | some x => pure x
    | none => Proc.panic (.indexOutOfRange i xs.length)
  else Proc.panic (.indexOutOfRange i xs.length)

/-- The slice expression `s[lo:hi]` on a string, with its bounds check. -/
def sliceStr (s : String) (lo hi : Int) : Proc String :=
  if 0 ≤ lo ∧ lo ≤ hi ∧ hi ≤ s.length then
    pure (String.mk ((s.data.drop lo.toNat).take (hi.toNat - lo.toNat)))
  else Proc.panic .sliceBounds

/-- The call `strings.Replace(s, old, new, -1)` for a non-empty `old`, on the characters of
`s`: every non-overlapping occurrence, left to right. `skip` counts the characters of a matched
occurrence still to be dropped. -/
def replaceFrom (old new : List Char) : List Char → Nat → List Char
  | [], _ => []
  | _ :: cs, skip + 1 => replaceFrom old new cs skip
  | c :: cs, 0 =>
    if old.isPrefixOf (c :: cs) then new ++ replaceFrom old new cs (old.length - 1)
    else c :: replaceFrom old new cs 0

/-- The call `strings.Replace(s, old, new, -1)`, `old` non-empty. -/
def stringsReplace (s old new : String) : String :=
  String.mk (replaceFrom old.data new.data s.data 0)

/-! ## The resolver -/

/-- The struct `RancherAPI`. -/
structure RancherAPI where
  Endpoint : String
  User : String
  Password : String
  deriving DecidableEq, Repr

/-- The answers of the outside world to the calls of the resolver, in program order. -/
structure Env where
  /-- The call `http.NewRequest("GET", ...)` followed by `req.URL.Query()`: `none` when no request
  could be built (the error is dropped and `req` is nil), else the values parsed from the URL. -/
  getQuery : Option Values
  /-- The result of `makeReq` on the discovery request: the error text or the decoded body. -/
  discovery : Except String JMap
  /-- The result of `fmt.Scan(&choice)`: the integer stored, `none` when the scan failed and
  `choice` kept its value. -/
  scan : Option Int
  /-- The columns and rows that `terminal.GetSize` returns. -/
  termSize : Int × Int
  /-- Whether `http.NewRequest("POST", ...)` could build a request. -/
  postOk : Bool
  /-- The result of `makeReq` on the exec request. -/
  exec : Except String JMap
  /-- The result of the websocket dial: `none` on success, else the error text. -/
  dial : Option String

/-- The method `RancherAPI.formatEndpoint`. -/
def RancherAPI.formatEndpoint (r : RancherAPI) : Proc String := do
  let last ← sliceStr r.Endpoint ((r.Endpoint.length : Int) - 1) r.Endpoint.length
  if last = "/" then
    sliceStr r.Endpoint 0 ((r.Endpoint.length : Int) - 1)
  else
    pure r.Endpoint

/-- The line printed for candidate number `i + 1` in the listing loop of `containerURL`. -/
def listingLine (i : Nat) (ctn : JMap) : Proc String := do
  match ctn.lookup "data" with
  | some d =>
    let name ← asString (ctn.lookup "name")
    let id ← asString (ctn.lookup "id")
    let accountId ← asString (ctn.lookup "accountId")
    let fields ← asObject ((← asObject (some d)).lookup "fields")
    let ip ← asString (fields.lookup "primaryIpAddress")
    let fields2 ← asObject ((← asObject (ctn.lookup "data")).lookup "fields")
    let host ← asString (fields2.lookup "dockerHostIp")
    pure ("[" ++ toString (i + 1) ++ "] " ++ name ++ ", Container ID " ++ id ++ " in project " ++
      accountId ++ ", IP Address " ++ ip ++ " on Host " ++ host)
  | none =>
    let name ← asString (ctn.lookup "name")
    let id ← asString (ctn.lookup "id")
    let accountId ← asString (ctn.lookup "accountId")
    let ip ← asString (ctn.lookup "primaryIpAddress")
    pure ("[" ++ toString (i + 1) ++ "] " ++ name ++ ", Container ID " ++ id ++ " in project " ++
      accountId ++ ", IP Address " ++ ip)

/-- The loop `for i, _ctn := range data` of `containerURL`, from index `i` on. -/
def listCandidates : List JSON → Nat → Proc Unit
  | [], _ => pure ()
  | _ctn :: rest, i => do
    let ctn ← asObject (some _ctn)
    let line ← listingLine i ctn
    Proc.emit (.println line)
    listCandidates rest (i + 1)

/-- The line `Target Container: ...` that `containerURL` prints for the selected container. -/
def targetLine (ctn : JMap) : Proc String := do
  match ctn.lookup "data" with
  | some d =>
    let name ← asString (ctn.lookup "name")
    let id ← asString (ctn.lookup "id")
    let accountId ← asString (ctn.lookup "accountId")
    let fields ← asObject ((← asObject (some d)).lookup "fields")
    let ip ← asString (fields.lookup "primaryIpAddress")
    let fields2 ← asObject ((← asObject (ctn.lookup "data")).lookup "fields")
    let host ← asString (fields2.lookup "dockerHostIp")
    pure ("Target Container: " ++ name ++ ", ID " ++ id ++ " in project " ++
      accountId ++ ", Addr " ++ ip ++ " on Host " ++ host)
  | none =>
    let name ← asString (ctn.lookup "name")
    let id ← asString (ctn.lookup "id")
    let accountId ← asString (ctn.lookup "accountId")
    let ip ← asString (ctn.lookup "primaryIpAddress")
    pure ("Target Container: " ++ name ++ ", ID " ++ id ++ " in project " ++
      accountId ++ ", Addr " ++ ip)

/-- The part of `containerURL` after `len(data) == 0` was excluded: listing and prompt when
there are several candidates, then selection, report and the URL. -/
def selectContainer (r : RancherAPI) (env : Env) (data : List JSON) : Proc String := do
  let choice : Int ←
    if data.length > 1 then do
      Proc.emit (.println "We found more than one containers in system:")
      listCandidates data 0
      Proc.emit (.println "--------------------------------------------")
      Proc.emit (.print "Which one you wanna use?: ")
      Proc.emit .scan
      pure (env.scan.getD 1)
    else pure 1
  let ctn ← asObject (some (← indexAt data (choice - 1)))
  let line ← targetLine ctn
  Proc.emit (.println line)
  let ep ← r.formatEndpoint
  let id ← asString (ctn.lookup "id")
  pure (ep ++ ("/containers/" ++ id ++ "/"))

/-- The method `RancherAPI.containerURL`. -/
def RancherAPI.containerURL (r : RancherAPI) (env : Env) (name : String) : Proc String := do
  let ep ← r.formatEndpoint
  let q ← match env.getQuery with
    | some q => pure q
    | none => Proc.panic .nilDereference
  let q := q ++ [("name_like", stringsReplace name "*" "%"), ("state", "running"),
    ("kind", "container")]
  Proc.emit (.request "GET" (ep ++ "/containers/") (some q) "")
  match env.discovery with
  | .error err =>
    Proc.emit (.println ("Failure communicating with rancher API: " ++ err))
    Proc.exit 1
  | .ok resp =>
    let data ← asArray (resp.lookup "data")
    if data.length = 0 then
      Proc.emit (.println ("Container " ++ name ++
        " not found, not running, or you don\x27t have access permissions."))
      Proc.exit 1
    else
      selectContainer r env data

/-- The body of the exec request, for a terminal of `cols` columns and `rows` rows. -/
def execBody (cols rows : Int) : String :=
  "\x7b\"attachStdin\":true, \"attachStdout\":true," ++
  "\"command\":[\"/bin/sh\", \"-c\", \"TERM=xterm-256color; export TERM; " ++
  "stty cols " ++ toString cols ++ " rows " ++ toString rows ++ "; " ++
  "[ -x /bin/bash ] && ([ -x /usr/bin/script ] && /usr/bin/script -q -c \\\"/bin/bash\\\" " ++
  "/dev/null || exec /bin/bash) || exec /bin/sh\"], \"tty\":true\x7d"

/-- The method `RancherAPI.getContainerWsURL`. -/
def RancherAPI.getContainerWsURL (_r : RancherAPI) (env : Env) (url : String) : Proc String := do
  let (cols, rows) := env.termSize
  if env.postOk = false then Proc.panic .nilDereference
  else
    Proc.emit (.request "POST" (url ++ "?action=execute") none (execBody cols rows))
    match env.exec with
    | .error err =>
      Proc.emit (.println ("Failed to get access token:  " ++ err))
      Proc.exit 1
    | .ok resp =>
      let u ← asString (resp.lookup "url")
      let token ← asString (resp.lookup "token")
      pure (u ++ "?token=" ++ token)

/-- The ping handler that `getWSConn` installs, as a function of the result `err` of the pong
send `conn.WriteControl` (`none` is nil). -/
def pingHandler (err : Option GoError) : Option GoError :=
  if err = some .errCloseSent then none
  else
    match err with
    | some (.netError _ true _) => none
    | _ => err

/-- The method `RancherAPI.getWSConn`; the connection it returns carries no data here. -/
def RancherAPI.getWSConn (r : RancherAPI) (env : Env) (wsURL : String) : Proc Unit := do
  let endpoint ← r.formatEndpoint
  Proc.emit (.dial wsURL endpoint)
  match env.dial with
  | some err =>
    Proc.emit (.println ("We couldn\x27t connect to this node:  " ++ err))
    Proc.exit 1
  | none => pure ()

/-- The method `RancherAPI.GetContainerConn`. -/
def RancherAPI.GetContainerConn (r : RancherAPI) (env : Env) (name : String) : Proc Unit := do
  Proc.emit (.println ("Searching for container " ++ name))
  let url ← r.containerURL env name
  Proc.emit (.println "Getting access token")
  let wsurl ← r.getContainerWsURL env url
  Proc.emit (.println "SSH into container ...")
  r.getWSConn env wsurl

/-! ## The bridge -/

/-- The struct `WebTerm`, without the connection: the saved terminal state (`none` is nil). -/
structure WebTerm where
  ttyState : Option TermState
  deriving DecidableEq, Repr

/-- The answers of the outside world during `Run`: the result of `terminal.MakeRaw`, the
histories the two loops meet, and which loop is served first by `<-w.errChn` when both have
a value to send. -/
structure BridgeEnv where
  makeRaw : Except GoError TermState
  recvs : List RecvEvent
  keys : List KeyEvent
  readerFirst : Bool

/-- The method `WebTerm.SetRawtty`. -/
def WebTerm.SetRawtty (w : WebTerm) (env : BridgeEnv) (isRaw : Bool) : Proc WebTerm :=
  if isRaw then do
    Proc.emit .makeRaw
    match env.makeRaw with
    | .error err => Proc.panic (.error err)
    | .ok state => pure { w with ttyState := some state }
  else do
    Proc.emit (.restore w.ttyState)
    pure w

/-- The first value received from `errChn`, if any loop ever sends one. -/
def firstCompletion (env : BridgeEnv) : Option Completion :=
  match (wsRead env.recvs).completion, (wsWrite env.keys).completion with
  | some r, some w => some (if env.readerFirst then r else w)
  | some r, none => some r
  | none, some w => some w
  | none, none => none

/-- The method `WebTerm.Run`: the trace is that of the calling goroutine. -/
def WebTerm.Run (w : WebTerm) (env : BridgeEnv) : Proc Unit := do
  let w ← w.SetRawtty env true
  match firstCompletion env with
  | none => Proc.block
  | some c =>
    Proc.emit (.signal c.signal)
    let _ ← w.SetRawtty env false
    match c.signal with
    | some err => Proc.panic (.error err)
    | none => pure ()

/-- The tail of `main` once the connection is made: run the bridge, then say good bye. -/
def mainTail (w : WebTerm) (benv : BridgeEnv) : Proc Unit := do
  w.Run benv
  Proc.emit (.println "Good bye.")

/-! ## Reading the model: helper definitions used in the statements -/

/-- The error a cause carries. -/
def Cause.error : Cause → GoError
  | .stdinRead e => e
  | .send e => e
  | .receive e => e
  | .decode e => e

/-- A send or receive error that is a close error with the normal-closure code 1000. -/
def Cause.normalClosure : Cause → Bool
  | .send (.closeError code _) => code == 1000
  | .receive (.closeError code _) => code == 1000
  | _ => false

/-- An error that implements `net.Error` and reports itself temporary. -/
def GoError.temporaryNet : GoError → Bool
  | .netError _ temporary _ => temporary
  | _ => false

/-- Whether an event is an HTTP request. -/
def Event.isRequest : Event → Bool
  | .request _ _ _ _ => true
  | _ => false

/-- Whether an event is `terminal.Restore`. -/
def Event.isRestore : Event → Bool
  | .restore _ => true
  | _ => false

/-- Whether an event is a websocket dial. -/
def Event.isDial : Event → Bool
  | .dial _ _ => true
  | _ => false

/-- The translation of the wildcard: `*` becomes `%`, every other character stays. -/
def starToPercent (c : Char) : Char := if c = '*' then '%' else c

/-- The record `ContainerMatch` of the data model: the identity fields of one search result;
`dockerHostIp` is the host IP the program shows, if it shows one. -/
structure ContainerMatch where
  id : String
  name : String
  accountId : String
  primaryIpAddress : String
  dockerHostIp : Option String
  deriving DecidableEq, Repr

/-- The string stored under key `k`, if there is one. -/
def getString (m : JMap) (k : String) : Option String :=
  match m.lookup k with
  | some (.string s) => some s
  | _ => none

/-- The object stored under key `k`, if there is one. -/
def getObject (m : JMap) (k : String) : Option JMap :=
  match m.lookup k with
  | some (.object o) => some o
  | _ => none

/-- The well-formed container records, read as `ContainerMatch`: an object with string fields
`id`, `name` and `accountId`, and either no key `data` and a string `primaryIpAddress` at top
level (no host IP shown), or an object `data.fields` holding strings `primaryIpAddress` and
`dockerHostIp`. -/
def decodeContainer : JSON → Option ContainerMatch
  | .object m =>
    match getString m "id", getString m "name", getString m "accountId" with
    | some id, some name, some accountId =>
      match m.lookup "data" with
      | none =>
        match getString m "primaryIpAddress" with
        | some ip => some ⟨id, name, accountId, ip, none⟩
        | none => none
      | some (.object d) =>
        match getObject d "fields" with
        | some f =>
          match getString f "primaryIpAddress", getString f "dockerHostIp" with
          | some ip, some host => some ⟨id, name, accountId, ip, some host⟩
          | _, _ => none
        | none => none
      | some _ => none
    | _, _, _ => none
  | _ => none

/-- The records of the data model read with `dockerHostIp` optional in both shapes: as
`decodeContainer`, but a record nested under `data.fields` may lack `dockerHostIp`. -/
def decodeContainerOptionalHost : JSON → Option ContainerMatch
  | .object m =>
    match getString m "id", getString m "name", getString m "accountId" with
    | some id, some name, some accountId =>
      match m.lookup "data" with
      | none =>
        match getString m "primaryIpAddress" with
        | some ip => some ⟨id, name, accountId, ip, none⟩
        | none => none
      | some (.object d) =>
        match getObject d "fields" with
        | some f =>
          match getString f "primaryIpAddress" with
          | some ip => some ⟨id, name, accountId, ip, getString f "dockerHostIp"⟩
          | none => none
        | none => none
      | some _ => none
    | _, _, _ => none
  | _ => none

/-- The listing line of candidate number `k`: index, name, id, owning account, primary IP, and
the host IP if there is one. -/
def candidateLine (k : Nat) (c : ContainerMatch) : String :=
  match c.dockerHostIp with
  | some host =>
    "[" ++ toString k ++ "] " ++ c.name ++ ", Container ID " ++ c.id ++ " in project " ++
      c.accountId ++ ", IP Address " ++ c.primaryIpAddress ++ " on Host " ++ host
  | none =>
    "[" ++ toString k ++ "] " ++ c.name ++ ", Container ID " ++ c.id ++ " in project " ++
      c.accountId ++ ", IP Address " ++ c.primaryIpAddress

/-- The report line of the selected container. -/
def targetReport (c : ContainerMatch) : String :=
  match c.dockerHostIp with
  | some host =>
    "Target Container: " ++ c.name ++ ", ID " ++ c.id ++ " in project " ++
      c.accountId ++ ", Addr " ++ c.primaryIpAddress ++ " on Host " ++ host
  | none =>
    "Target Container: " ++ c.name ++ ", ID " ++ c.id ++ " in project " ++
      c.accountId ++ ", Addr " ++ c.primaryIpAddress

/-- The discovery request for pattern value `v` on endpoint `ep`, the URL having carried the
query values `q0` before. -/
def discoveryRequest (ep : String) (q0 : Values) (v : String) : Event :=
  .request "GET" (ep ++ "/containers/")
    (some (q0 ++ [("name_like", v), ("state", "running"), ("kind", "container")])) ""

/-- The endpoint `ep` is `endpoint` with one trailing `/` removed if it has one. -/
def StripsSlash (endpoint ep : String) : Prop :=
  endpoint = ep ++ "/" ∨ (ep = endpoint ∧ ∀ p : String, endpoint ≠ p ++ "/")

/-- What every value a loop sends on `errChn` satisfies: nil exactly for a normal closure met
on send or receive, else the error of the cause. -/
def Completion.Sound (c : Completion) : Prop :=
  (c.cause.normalClosure = true ∧ c.signal = none) ∨
    (c.cause.normalClosure = false ∧ c.signal = some c.cause.error)

/-- A computation that issues no HTTP request. -/
def NoRequest {α : Type} (p : Proc α) : Prop := p.trace.filter Event.isRequest = []

/-! ## Scenarios -/

/-- An API client whose endpoint ends in `/`. -/
def sampleAPI : RancherAPI := ⟨"https://rancher.server/v1/", "key", "secret"⟩

/-- The container of the first scenario: the identity fields at top level, no host IP. -/
def web1 : JSON :=
  .object [("id", .string "1c1"), ("name", .string "web-1"), ("accountId", .string "1a1"),
    ("primaryIpAddress", .string "10.0.0.5")]

/-- A container in the nested shape, with `primaryIpAddress` and `dockerHostIp` under
`data.fields`. -/
def web2 : JSON :=
  .object [("id", .string "1c2"), ("name", .string "web-2"), ("accountId", .string "1a1"),
    ("data", .object [("fields", .object [("primaryIpAddress", .string "10.0.0.6"),
      ("dockerHostIp", .string "192.168.0.1")])])]

/-- A container in the nested shape that has no `dockerHostIp`. -/
def web3 : JSON :=
  .object [("id", .string "1c3"), ("name", .string "web-3"), ("accountId", .string "1a1"),
    ("data", .object [("fields", .object [("primaryIpAddress", .string "10.0.0.7")])])]

/-- The world in which discovery answers with the list `data`, the operator types `scan`, the
terminal is 80 by 24, and the exec request and the dial succeed. -/
def sampleEnv (data : List JSON) (scan : Option Int) : Env :=
  { getQuery := some []
    discovery := .ok [("data", .array data)]
    scan := scan
    termSize := (80, 24)
    postOk := true
    exec := .ok [("url", .string "ws://host/exec"), ("token", .string "t0k")]
    dial := none }

/-- A session in which the remote sends one frame and then a normal-closure close frame. -/
def cleanCloseSession : BridgeEnv :=
  { makeRaw := .ok ⟨7⟩
    recvs := [.msg (EncodeToString [65]), .recvErr (.closeError 1000 "")]
    keys := [.key 3 none]
    readerFirst := true }

/-- A session in which the remote sends a payload that is not base64. -/
def malformedSession : BridgeEnv :=
  { makeRaw := .ok ⟨7⟩
    recvs := [.msg [33, 33]]
    keys := []
    readerFirst := true }

/-! ## Basic facts about `Proc` -/

@[simp] theorem Proc.bind_eq {α β : Type} (p : Proc α) (f : α → Proc β) :
    p >>= f = Proc.andThen p f := rfl

@[simp] theorem Proc.pure_eq {α : Type} (a : α) : (pure a : Proc α) = Proc.ret a := rfl

@[simp] theorem Proc.andThen_ret {α β : Type} (t : List Event) (a : α) (f : α → Proc β) :
    Proc.andThen ⟨t, .ret a⟩ f = ⟨t ++ (f a).trace, (f a).result⟩ := rfl

@[simp] theorem Proc.andThen_exit {α β : Type} (t : List Event) (c : Nat) (f : α → Proc β) :
    Proc.andThen ⟨t, .exit c⟩ f = ⟨t, .exit c⟩ := rfl

@[simp] theorem Proc.andThen_panic {α β : Type} (t : List Event) (x : Fault) (f : α → Proc β) :
    Proc.andThen ⟨t, .panic x⟩ f = ⟨t, .panic x⟩ := rfl

@[simp] theorem Proc.andThen_blocked {α β : Type} (t : List Event) (f : α → Proc β) :
    Proc.andThen (⟨t, .blocked⟩ : Proc α) f = ⟨t, .blocked⟩ := rfl

/-! ## The transport -/

set_option maxRecDepth 100000 in
theorem decode_encode_byte : ∀ b, b < 256 → DecodeString (EncodeToString [b]) = .ok [b] := by
  decide

theorem wsWrite_keys (bs : List Nat) :
    wsWrite (bs.map (fun b => KeyEvent.key b none)) =
      ⟨bs.map (fun b => EncodeToString [b]), none⟩ := by
  induction bs with
  | nil => rfl
  | cons b bs ih => simp [wsWrite, ih]

theorem wsRead_frames (bs : List Nat) (h : ∀ b ∈ bs, b < 256) :
    wsRead ((bs.map (fun b => EncodeToString [b])).map RecvEvent.msg) =
      ⟨bs.map (fun b => [b]), none⟩ := by
  induction bs with
  | nil => rfl
  | cons b bs ih =>
    have hb : b < 256 := h b (List.mem_cons_self b bs)
    have ih2 := ih (fun x hx => h x (List.mem_cons_of_mem b hx))
    simp only [List.map_cons, wsRead, decode_encode_byte b hb, ih2]

theorem flatten_singletons (bs : List Nat) : (bs.map (fun b => [b])).flatten = bs := by
  induction bs with
  | nil => rfl
  | cons b bs ih => simp [List.flatten, ih]

/-- C1: every byte sequence survives the transport. The outbound loop `wsWrite`, fed the bytes
`bs` with every send succeeding, sends one frame per byte, the standard base64 of that byte;
`DecodeString` succeeds on every one of these frames; the inbound loop `wsRead`, fed these
frames, meets no error and writes to stdout slices whose concatenation is `bs`. -/
theorem transport_round_trip (bs : List Nat) (h : ∀ b ∈ bs, b < 256) :
    (wsWrite (bs.map (fun b => KeyEvent.key b none))).sent
        = bs.map (fun b => EncodeToString [b]) ∧
    (wsWrite (bs.map (fun b => KeyEvent.key b none))).sent.map DecodeString
        = bs.map (fun b => Except.ok [b]) ∧
    (wsRead ((wsWrite (bs.map (fun b => KeyEvent.key b none))).sent.map RecvEvent.msg)).completion
        = none ∧
    (wsRead ((wsWrite (bs.map (fun b => KeyEvent.key b none))).sent.map RecvEvent.msg)).stdout.flatten
        = bs := by
  rw [wsWrite_keys, wsRead_frames bs h]
  refine ⟨rfl, ?_, rfl, flatten_singletons bs⟩
  simp only [List.map_map, List.map_inj_left, Function.comp]
  intro b hb
  exact decode_encode_byte b (h b hb)

theorem transport_round_trip_witness :
    (∀ b ∈ [0, 3, 27, 65, 128, 255], b < 256) ∧
    (wsRead ((wsWrite ([0, 3, 27, 65, 128, 255].map
      (fun b => KeyEvent.key b none))).sent.map RecvEvent.msg)).stdout.flatten
        = [0, 3, 27, 65, 128, 255] :=
  ⟨by decide, (transport_round_trip [0, 3, 27, 65, 128, 255] (by decide)).2.2.2⟩

/-! ## The ping responder -/

/-- C10: the ping handler returns nil when the pong send succeeded, when it failed with
`ErrCloseSent`, and when it failed with a `net.Error` that reports itself temporary; for every
other failure it returns that same error. -/
theorem pingHandler_spec :
    pingHandler none = none ∧
    pingHandler (some .errCloseSent) = none ∧
    (∀ timeout msg, pingHandler (some (.netError timeout true msg)) = none) ∧
    (∀ e : GoError, e ≠ .errCloseSent → e.temporaryNet = false →
      pingHandler (some e) = some e) := by
  refine ⟨rfl, rfl, fun _ _ => rfl, ?_⟩
  intro e h1 h2
  cases e with
  | errCloseSent => exact absurd rfl h1
  | netError t tmp m =>
    cases tmp with
    | true => simp [GoError.temporaryNet] at h2
    | false => simp [pingHandler]
  | closeError c t => simp [pingHandler]
  | corruptInput => simp [pingHandler]
  | other m => simp [pingHandler]

theorem pingHandler_spec_witness :
    GoError.other "broken pipe" ≠ .errCloseSent ∧
    pingHandler (some (.other "broken pipe")) = some (.other "broken pipe") :=
  ⟨by decide, pingHandler_spec.2.2.2 (.other "broken pipe") (by decide) rfl⟩

/-! ## The session -/

theorem normalClosure_send (e : GoError) :
    (Cause.send e).normalClosure = IsCloseError e [CloseNormalClosure] := by
  cases e <;> simp [Cause.normalClosure, IsCloseError, CloseNormalClosure, beq_eq_decide]

theorem normalClosure_receive (e : GoError) :
    (Cause.receive e).normalClosure = IsCloseError e [CloseNormalClosure] := by
  cases e <;> simp [Cause.normalClosure, IsCloseError, CloseNormalClosure, beq_eq_decide]

theorem wsWrite_sound (ks : List KeyEvent) (c : Completion)
    (h : (wsWrite ks).completion = some c) : c.Sound := by
  induction ks with
  | nil => simp [wsWrite] at h
  | cons k ks ih =>
    cases k with
    | readErr e =>
      simp only [wsWrite, Option.some.injEq] at h
      subst h
      exact Or.inr ⟨rfl, rfl⟩
    | key b sendErr =>
      cases sendErr with
      | none => exact ih (by simpa [wsWrite] using h)
      | some e =>
        by_cases hc : IsCloseError e [CloseNormalClosure] = true
        · simp only [wsWrite, hc, if_true, Option.some.injEq] at h
          subst h
          exact Or.inl ⟨by rw [normalClosure_send, hc], rfl⟩
        · simp only [wsWrite, hc, Bool.false_eq_true, if_false, Option.some.injEq] at h
          subst h
          exact Or.inr ⟨by rw [normalClosure_send]; simpa using hc, rfl⟩

theorem wsRead_sound (rs : List RecvEvent) (c : Completion)
    (h : (wsRead rs).completion = some c) : c.Sound := by
  induction rs with
  | nil => simp [wsRead] at h
  | cons r rs ih =>
    cases r with
    | recvErr e =>
      by_cases hc : IsCloseError e [CloseNormalClosure] = true
      · simp only [wsRead, hc, if_true, Option.some.injEq] at h
        subst h
        exact Or.inl ⟨by rw [normalClosure_receive, hc], rfl⟩
      · simp only [wsRead, hc, Bool.false_eq_true, if_false, Option.some.injEq] at h
        subst h
        exact Or.inr ⟨by rw [normalClosure_receive]; simpa using hc, rfl⟩
    | msg raw =>
      cases hd : DecodeString raw with
      | error e =>
        simp only [wsRead, hd, Option.some.injEq] at h
        subst h
        exact Or.inr ⟨rfl, rfl⟩
      | ok out => exact ih (by simpa [wsRead, hd] using h)

theorem firstCompletion_sound (env : BridgeEnv) (c : Completion)
    (h : firstCompletion env = some c) : c.Sound := by
  unfold firstCompletion at h
  cases hr : (wsRead env.recvs).completion with
  | none =>
    cases hw : (wsWrite env.keys).completion with
    | none => simp [hr, hw] at h
    | some w =>
      simp only [hr, hw, Option.some.injEq] at h
      subst h
      exact wsWrite_sound _ _ hw
  | some r =>
    cases hw : (wsWrite env.keys).completion with
    | none =>
      simp only [hr, hw, Option.some.injEq] at h
      subst h
      exact wsRead_sound _ _ hr
    | some w =>
      simp only [hr, hw, Option.some.injEq] at h
      subst h
      cases env.readerFirst with
      | true => exact wsRead_sound _ _ hr
      | false => exact wsWrite_sound _ _ hw

theorem run_eq (w : WebTerm) (env : BridgeEnv) (st : TermState) (c : Completion)
    (hraw : env.makeRaw = .ok st) (hc : firstCompletion env = some c) :
    w.Run env = ⟨[.makeRaw, .signal c.signal, .restore (some st)],
      match c.signal with
      | some err => .panic (.error err)
      | none => .ret ()⟩ := by
  cases hs : c.signal <;>
    simp [WebTerm.Run, WebTerm.SetRawtty, hraw, hc, hs, Proc.emit, Proc.ret, Proc.panic]

theorem run_blocked (w : WebTerm) (env : BridgeEnv) (st : TermState)
    (hraw : env.makeRaw = .ok st) (hc : firstCompletion env = none) :
    w.Run env = ⟨[.makeRaw], .blocked⟩ := by
  simp [WebTerm.Run, WebTerm.SetRawtty, hraw, hc, Proc.emit, Proc.ret, Proc.block]

/-- C6: in every run that entered raw mode, `Run` returns, and the process then ends with
status 0, exactly when a first completion signal arrives and was caused by a send or receive
error that is a close error with the normal-closure code; for every other cause of the first
signal (a stdin read error, a decode error, any other send or receive error) the signal
carries the error of the cause and `Run` panics with it, which ends the process with the
non-zero status 2. -/
theorem session_outcome (w : WebTerm) (env : BridgeEnv) (st : TermState)
    (hraw : env.makeRaw = .ok st) :
    ((w.Run env).result = .ret () ↔
      ∃ c, firstCompletion env = some c ∧ c.cause.normalClosure = true) ∧
    (exitStatus (mainTail w env).result = some 0 ↔
      ∃ c, firstCompletion env = some c ∧ c.cause.normalClosure = true) ∧
    (∀ c, firstCompletion env = some c → c.cause.normalClosure = false →
      c.signal = some c.cause.error ∧
      (w.Run env).result = .panic (.error c.cause.error) ∧
      exitStatus (mainTail w env).result = some 2) := by
  cases hc : firstCompletion env with
  | none =>
    simp [mainTail, run_blocked w env st hraw hc, exitStatus]
  | some c =>
    simp only [mainTail, Proc.bind_eq, run_eq w env st c hraw hc]
    rcases firstCompletion_sound env c hc with ⟨hn, hs⟩ | ⟨hn, hs⟩
    · simp [hs, hn, exitStatus, Proc.emit]
    · simp [hs, hn, exitStatus, Proc.emit]

/-- C7: in every run that entered raw mode with saved state `st`: when a first completion
signal `c` arrives, the calling goroutine does exactly this: `MakeRaw`, the receive of `c`, one
`Restore` of `st`, and only then acts on the outcome, so the saved state is restored exactly
once, after the signal, whatever the signal carries and whichever loop sent it; while no
signal arrives it stays blocked in the receive and restores nothing. -/
theorem restore_exactly_once (w : WebTerm) (env : BridgeEnv) (st : TermState)
    (hraw : env.makeRaw = .ok st) :
    (∀ c, firstCompletion env = some c →
      (w.Run env).trace = [.makeRaw, .signal c.signal, .restore (some st)] ∧
      ((w.Run env).trace.filter Event.isRestore).length = 1 ∧
      (w.Run env).result ≠ .blocked) ∧
    (firstCompletion env = none → w.Run env = ⟨[.makeRaw], .blocked⟩) := by
  refine ⟨fun c hc => ?_, fun hc => run_blocked w env st hraw hc⟩
  rw [run_eq w env st c hraw hc]
  refine ⟨rfl, rfl, ?_⟩
  cases c.signal <;> simp

/-! ## The resolver: lemmas -/

theorem formatEndpoint_spec (r : RancherAPI) (h : r.Endpoint ≠ "") :
    ∃ ep, r.formatEndpoint = ⟨[], .ret ep⟩ ∧ StripsSlash r.Endpoint ep := by
  obtain ⟨e, u, pw⟩ := r
  obtain ⟨l⟩ := e
  have hl : l ≠ [] := fun hn => h (by simp [hn])
  have hlen : 1 ≤ l.length := List.length_pos.2 hl
  have hsplit : l = l.take (l.length - 1) ++ l.drop (l.length - 1) :=
    (List.take_append_drop _ l).symm
  have hcond1 : (0 : Int) ≤ (l.length : Int) - 1 ∧ (l.length : Int) - 1 ≤ l.length ∧
      (l.length : Int) ≤ l.length := by omega
  have hcond2 : (0 : Int) ≤ 0 ∧ (0 : Int) ≤ (l.length : Int) - 1 ∧
      (l.length : Int) - 1 ≤ l.length := by omega
  have ht : ((l.length : Int) - 1).toNat = l.length - 1 := by omega
  have hsub : l.length - (l.length - 1) = 1 := by omega
  have hdl : (l.drop (l.length - 1)).length = 1 := by simp [List.length_drop, hsub]
  by_cases hlast : l.drop (l.length - 1) = ['/']
  · refine ⟨String.mk (l.take (l.length - 1)), ?_, Or.inl ?_⟩
    · simp [RancherAPI.formatEndpoint, sliceStr, hcond1, hcond2, ht, hsub, hlast, Proc.ret,
        String.ext_iff]
    · show String.mk l = String.mk (l.take (l.length - 1)) ++ "/"
      rw [String.ext_iff]
      simp only [String.data_append]
      rw [← hlast]
      exact hsplit
  · refine ⟨String.mk l, ?_, Or.inr ⟨rfl, ?_⟩⟩
    · have : List.take 1 (l.drop (l.length - 1)) = l.drop (l.length - 1) :=
        List.take_of_length_le (by omega)
      simp [RancherAPI.formatEndpoint, sliceStr, hcond1, ht, hsub, this, hlast, Proc.ret,
        String.ext_iff]
    · intro p hp
      apply hlast
      have hd : l = p.data ++ ['/'] := by
        have := congrArg String.data hp
        simpa using this
      have hpl : l.length - 1 = p.data.length := by simp [hd]
      rw [hpl, hd, List.drop_left]

theorem replaceFrom_star (l : List Char) :
    replaceFrom ['*'] ['%'] l 0 = l.map starToPercent := by
  induction l with
  | nil => rfl
  | cons c cs ih =>
    by_cases hc : c = '*'
    · subst hc
      simp [replaceFrom, ih, starToPercent, List.isPrefixOf]
    · have hne : ('*' == c) = false := by
        simp only [beq_eq_false_iff_ne, ne_eq]
        exact fun h => hc h.symm
      simp [replaceFrom, ih, starToPercent, List.isPrefixOf, hc, hne]

theorem stringsReplace_star (name : String) :
    (stringsReplace name "*" "%").data = name.data.map starToPercent := by
  show replaceFrom ['*'] ['%'] name.data 0 = _
  exact replaceFrom_star name.data

theorem decodeContainer_sound (j : JSON) (c : ContainerMatch) (h : decodeContainer j = some c) :
    ∃ m, j = .object m ∧ asString (m.lookup "id") = ⟨[], .ret c.id⟩ ∧
      (∀ i, listingLine i m = ⟨[], .ret (candidateLine (i + 1) c)⟩) ∧
      targetLine m = ⟨[], .ret (targetReport c)⟩ := by
  cases j with
  | object m =>
    refine ⟨m, rfl, ?_⟩
    simp only [decodeContainer, getString, getObject] at h
    split at h
    next id name acc hid hname hacc =>
      split at hid <;> try contradiction
      split at hname <;> try contradiction
      split at hacc <;> try contradiction
      next sid hsid _ sname hsname _ sacc hsacc =>
      simp only [Option.some.injEq] at hid hname hacc
      subst hid hname hacc
      split at h
      next hdata =>
        split at h <;> try contradiction
        next ip hip =>
        split at hip <;> try contradiction
        next sip hsip =>
        simp only [Option.some.injEq] at hip h
        subst hip h
        simp [listingLine, targetLine, candidateLine, targetReport, asString, hsid, hsname,
          hsacc, hdata, hsip, Proc.ret]
      next d hdata =>
        split at h <;> try contradiction
        next f hf =>
        split at hf <;> try contradiction
        next sf hsf =>
        simp only [Option.some.injEq] at hf
        subst hf
        split at h <;> try contradiction
        next ip host hip hhost =>
        split at hip <;> try contradiction
        split at hhost <;> try contradiction
        next sip hsip _ shost hshost =>
        simp only [Option.some.injEq] at hip hhost h
        subst hip hhost h
        simp [listingLine, targetLine, candidateLine, targetReport, asString, asObject, hsid,
          hsname, hsacc, hdata, hsf, hsip, hshost, Proc.ret]
      next => contradiction
    next => contradiction
  | null => simp [decodeContainer] at h
  | bool b => simp [decodeContainer] at h
  | number n => simp [decodeContainer] at h
  | string s => simp [decodeContainer] at h
  | array xs => simp [decodeContainer] at h

theorem listCandidates_decoded (data : List JSON) (cs : List ContainerMatch)
    (h : List.Forall₂ (fun j c => decodeContainer j = some c) data cs) (i : Nat) :
    listCandidates data i =
      ⟨(cs.enumFrom i).map (fun kc => Event.println (candidateLine (kc.1 + 1) kc.2)), .ret ()⟩ := by
  induction h generalizing i with
  | nil => rfl
  | cons hd _ ih =>
    obtain ⟨m, rfl, _, hline, _⟩ := decodeContainer_sound _ _ hd
    simp [listCandidates, asObject, hline, ih, Proc.ret, Proc.emit]

theorem forall₂_get? {α β : Type} {R : α → β → Prop} {l1 : List α} {l2 : List β}
    (h : List.Forall₂ R l1 l2) (n : Nat) (b : β) (hb : l2.get? n = some b) :
    ∃ a, l1.get? n = some a ∧ R a b := by
  induction h generalizing n with
  | nil => simp at hb
  | cons hd _ ih =>
    cases n with
    | zero =>
      simp only [List.get?_cons_zero, Option.some.injEq] at hb
      subst hb
      exact ⟨_, rfl, hd⟩
    | succ n => exact ih n (by simpa using hb)

theorem NoRequest.andThen {α β : Type} {p : Proc α} {f : α → Proc β}
    (hp : NoRequest p) (hf : ∀ a, NoRequest (f a)) : NoRequest (p.andThen f) := by
  obtain ⟨t, res⟩ := p
  cases res with
  | ret a =>
    have := hf a
    simp only [NoRequest] at hp this
    simp [NoRequest, hp, this]
  | exit c => simpa [NoRequest] using hp
  | panic x => simpa [NoRequest] using hp
  | blocked => simpa [NoRequest] using hp

theorem noRequest_asString (x : Option JSON) : NoRequest (asString x) := by
  unfold asString
  split <;> rfl

theorem noRequest_asObject (x : Option JSON) : NoRequest (asObject x) := by
  unfold asObject
  split <;> rfl

theorem noRequest_indexAt (xs : List JSON) (i : Int) : NoRequest (indexAt xs i) := by
  unfold indexAt
  split
  · split <;> rfl
  · rfl

theorem noRequest_sliceStr (s : String) (lo hi : Int) : NoRequest (sliceStr s lo hi) := by
  unfold sliceStr
  split <;> rfl

theorem noRequest_ret {α : Type} (a : α) : NoRequest (Proc.ret a) := rfl

theorem noRequest_formatEndpoint (r : RancherAPI) : NoRequest r.formatEndpoint := by
  unfold RancherAPI.formatEndpoint
  simp only [Proc.bind_eq, Proc.pure_eq]
  refine NoRequest.andThen (noRequest_sliceStr _ _ _) (fun a => ?_)
  split
  · exact noRequest_sliceStr _ _ _
  · exact noRequest_ret _

theorem noRequest_listingLine (i : Nat) (m : JMap) : NoRequest (listingLine i m) := by
  unfold listingLine
  simp only [Proc.bind_eq, Proc.pure_eq]
  split <;>
    repeat' first
      | exact noRequest_ret _
      | exact noRequest_asString _
      | exact noRequest_asObject _
      | refine NoRequest.andThen ?_ (fun _ => ?_)

theorem noRequest_targetLine (m : JMap) : NoRequest (targetLine m) := by
  unfold targetLine
  simp only [Proc.bind_eq, Proc.pure_eq]
  split <;>
    repeat' first
      | exact noRequest_ret _
      | exact noRequest_asString _
      | exact noRequest_asObject _
      | refine NoRequest.andThen ?_ (fun _ => ?_)

theorem noRequest_listCandidates (data : List JSON) (i : Nat) :
    NoRequest (listCandidates data i) := by
  induction data generalizing i with
  | nil => rfl
  | cons j js ih =>
    unfold listCandidates
    simp only [Proc.bind_eq]
    refine NoRequest.andThen (noRequest_asObject _) (fun _ => ?_)
    refine NoRequest.andThen (noRequest_listingLine _ _) (fun _ => ?_)
    exact NoRequest.andThen rfl (fun _ => ih _)

theorem noRequest_selectContainer (r : RancherAPI) (env : Env) (data : List JSON) :
    NoRequest (selectContainer r env data) := by
  unfold selectContainer
  simp only [Proc.bind_eq, Proc.pure_eq]
  split <;>
    repeat' first
      | exact noRequest_ret _
      | exact noRequest_asString _
      | exact noRequest_asObject _
      | exact noRequest_indexAt _ _
      | exact noRequest_targetLine _
      | exact noRequest_formatEndpoint _
      | exact noRequest_listCandidates _ _
      | refine NoRequest.andThen ?_ (fun _ => ?_)
      | rfl

/-- What `containerURL` does up to the answer of the API: one discovery request. -/
theorem containerURL_requests (r : RancherAPI) (env : Env) (name ep : String) (q0 : Values)
    (hep : r.formatEndpoint = ⟨[], .ret ep⟩) (hq : env.getQuery = some q0) :
    (r.containerURL env name).trace.filter Event.isRequest =
      [discoveryRequest ep q0 (stringsReplace name "*" "%")] := by
  have hrest : ∀ p : Proc String, NoRequest p →
      (Proc.andThen (Proc.emit (discoveryRequest ep q0 (stringsReplace name "*" "%")))
        (fun _ => p)).trace.filter Event.isRequest =
      [discoveryRequest ep q0 (stringsReplace name "*" "%")] := by
    intro p hp
    simp only [NoRequest] at hp
    simp [Proc.emit, hp, discoveryRequest, Event.isRequest]
  unfold RancherAPI.containerURL
  simp only [Proc.bind_eq, Proc.pure_eq, hep, hq, Proc.andThen_ret, Proc.ret, List.nil_append]
  refine hrest _ ?_
  split
  · exact NoRequest.andThen rfl (fun _ => rfl)
  · refine NoRequest.andThen ?_ (fun data => ?_)
    · unfold asArray
      split <;> rfl
    · split
      · exact NoRequest.andThen rfl (fun _ => rfl)
      · exact noRequest_selectContainer _ _ _

theorem filter_andThen_noRequest {α β : Type} (p : Proc α) (f : α → Proc β)
    (hf : ∀ a, NoRequest (f a)) :
    (p.andThen f).trace.filter Event.isRequest = p.trace.filter Event.isRequest := by
  obtain ⟨t, res⟩ := p
  cases res with
  | ret a =>
    have := hf a
    simp only [NoRequest] at this
    simp [this]
  | exit c => rfl
  | panic x => rfl
  | blocked => rfl

theorem noRequest_getWSConn (r : RancherAPI) (env : Env) (wsURL : String) :
    NoRequest (r.getWSConn env wsURL) := by
  unfold RancherAPI.getWSConn
  simp only [Proc.bind_eq, Proc.pure_eq]
  refine NoRequest.andThen (noRequest_formatEndpoint _) (fun _ => ?_)
  refine NoRequest.andThen rfl (fun _ => ?_)
  split
  · exact NoRequest.andThen rfl (fun _ => rfl)
  · rfl

theorem getContainerWsURL_requests (r : RancherAPI) (env : Env) (url : String)
    (hpost : env.postOk = true) :
    (r.getContainerWsURL env url).trace.filter Event.isRequest =
      [.request "POST" (url ++ "?action=execute") none
        (execBody env.termSize.1 env.termSize.2)] := by
  have hrest : ∀ (e : Event) (p : Proc String), e.isRequest = true → NoRequest p →
      (Proc.andThen (Proc.emit e) (fun _ => p)).trace.filter Event.isRequest = [e] := by
    intro e p he hp
    simp only [NoRequest] at hp
    simp [Proc.emit, hp, he]
  unfold RancherAPI.getContainerWsURL
  simp only [Proc.bind_eq, Proc.pure_eq, hpost]
  refine hrest _ _ rfl ?_
  split
  · exact NoRequest.andThen rfl (fun _ => rfl)
  · refine NoRequest.andThen (noRequest_asString _) (fun _ => ?_)
    exact NoRequest.andThen (noRequest_asString _) (fun _ => rfl)

theorem starToPercent_ne_star (c : Char) : starToPercent c ≠ '*' := by
  unfold starToPercent
  split
  · decide
  · assumption

theorem GetContainerConn_requests (r : RancherAPI) (env : Env) (name : String)
    (t : List Event) (url : String) (hcu : r.containerURL env name = ⟨t, .ret url⟩)
    (hpost : env.postOk = true) :
    (r.GetContainerConn env name).trace.filter Event.isRequest =
      t.filter Event.isRequest ++
        [.request "POST" (url ++ "?action=execute") none
          (execBody env.termSize.1 env.termSize.2)] := by
  have hcont : ∀ wsurl : String, NoRequest
      ((Proc.emit (.println "SSH into container ...")).andThen
        (fun _ => r.getWSConn env wsurl)) :=
    fun wsurl => NoRequest.andThen rfl (fun _ => noRequest_getWSConn r env wsurl)
  have htrace : (r.GetContainerConn env name).trace =
      Event.println ("Searching for container " ++ name) ::
        (t ++ Event.println "Getting access token" ::
          ((r.getContainerWsURL env url).andThen (fun wsurl =>
            (Proc.emit (.println "SSH into container ...")).andThen
              (fun _ => r.getWSConn env wsurl))).trace) := by
    unfold RancherAPI.GetContainerConn
    simp only [Proc.bind_eq]
    rw [hcu]
    rfl
  rw [htrace, List.filter_cons, List.filter_append, List.filter_cons,
    filter_andThen_noRequest _ _ hcont, getContainerWsURL_requests r env url hpost]
  rfl

/-! ## The resolver: main results -/

/-- C9: for every name pattern, `containerURL` issues exactly one request, a GET on
`E/containers/` whose query carries `name_like=v`, `state=running` and `kind=container`, where
`v` is the pattern with every `*` replaced by `%` and every other character unchanged: `v`
holds no `*`, has the length of the pattern, and two patterns that differ only in writing `*`
for `%` yield the same request. -/
theorem wildcard_translation (r : RancherAPI) (env : Env) (name : String) (q0 : Values)
    (hE : r.Endpoint ≠ "") (hq : env.getQuery = some q0) :
    ∃ ep v, StripsSlash r.Endpoint ep ∧
      (r.containerURL env name).trace.filter Event.isRequest =
        [.request "GET" (ep ++ "/containers/")
          (some (q0 ++ [("name_like", v), ("state", "running"), ("kind", "container")])) ""] ∧
      v.data = name.data.map starToPercent ∧
      '*' ∉ v.data ∧
      v.length = name.length ∧
      (∀ name2 : String, name2.data.map starToPercent = name.data.map starToPercent →
        (r.containerURL env name2).trace.filter Event.isRequest =
          (r.containerURL env name).trace.filter Event.isRequest) := by
  obtain ⟨ep, hep, hstrip⟩ := formatEndpoint_spec r hE
  refine ⟨ep, stringsReplace name "*" "%", hstrip, ?_, stringsReplace_star name, ?_, ?_, ?_⟩
  · exact containerURL_requests r env name ep q0 hep hq
  · rw [stringsReplace_star]
    intro hmem
    obtain ⟨c, _, hc⟩ := List.mem_map.1 hmem
    exact starToPercent_ne_star c hc
  · show (stringsReplace name "*" "%").data.length = name.data.length
    rw [stringsReplace_star, List.length_map]
  · intro name2 h2
    rw [containerURL_requests r env name ep q0 hep hq,
      containerURL_requests r env name2 ep q0 hep hq]
    have : stringsReplace name2 "*" "%" = stringsReplace name "*" "%" := by
      rw [String.ext_iff, stringsReplace_star, stringsReplace_star, h2]
    rw [this]

theorem wildcard_translation_witness :
    (RancherAPI.mk "https://rancher.server/v1" "key" "secret").Endpoint ≠ "" ∧
    ∃ ep v, StripsSlash "https://rancher.server/v1" ep ∧
      ((RancherAPI.mk "https://rancher.server/v1" "key" "secret").containerURL
          ⟨some [], .error "timeout", none, (80, 24), true, .error "timeout", none⟩
          "my-server*").trace.filter Event.isRequest =
        [.request "GET" (ep ++ "/containers/")
          (some ([] ++ [("name_like", v), ("state", "running"), ("kind", "container")])) ""] ∧
      v.data = "my-server*".data.map starToPercent :=
  ⟨by decide,
    let ⟨ep, v, h1, h2, h3, _⟩ := wildcard_translation
      (RancherAPI.mk "https://rancher.server/v1" "key" "secret")
      ⟨some [], .error "timeout", none, (80, 24), true, .error "timeout", none⟩
      "my-server*" [] (by decide) rfl
    ⟨ep, v, h1, h2, h3⟩⟩

/-- C5: when the discovery response has an empty data list, `containerURL` prints the message
naming the pattern and ends the process with status 1, before any selection; the whole of
`GetContainerConn` then consists of the status line, the one discovery request and that
message: no operator input is read, no exec request is issued, no websocket is dialed. -/
theorem not_found (r : RancherAPI) (env : Env) (name : String) (q0 : Values) (resp : JMap)
    (hE : r.Endpoint ≠ "") (hq : env.getQuery = some q0)
    (hresp : env.discovery = .ok resp) (hdata : resp.lookup "data" = some (.array [])) :
    ∃ ep, StripsSlash r.Endpoint ep ∧
      r.containerURL env name =
        ⟨[discoveryRequest ep q0 (stringsReplace name "*" "%"),
          .println ("Container " ++ name ++
            " not found, not running, or you don\x27t have access permissions.")],
          .exit 1⟩ ∧
      r.GetContainerConn env name =
        ⟨[.println ("Searching for container " ++ name),
          discoveryRequest ep q0 (stringsReplace name "*" "%"),
          .println ("Container " ++ name ++
            " not found, not running, or you don\x27t have access permissions.")],
          .exit 1⟩ ∧
      (r.GetContainerConn env name).trace.filter Event.isRequest =
        [discoveryRequest ep q0 (stringsReplace name "*" "%")] ∧
      (r.GetContainerConn env name).trace.filter Event.isDial = [] ∧
      Event.scan ∉ (r.GetContainerConn env name).trace ∧
      exitStatus (r.GetContainerConn env name).result = some 1 := by
  obtain ⟨ep, hep, hstrip⟩ := formatEndpoint_spec r hE
  have h1 : r.containerURL env name =
      ⟨[discoveryRequest ep q0 (stringsReplace name "*" "%"),
        .println ("Container " ++ name ++
          " not found, not running, or you don\x27t have access permissions.")],
        .exit 1⟩ := by
    simp [RancherAPI.containerURL, hep, hq, hresp, hdata, asArray, Proc.ret, Proc.emit,
      Proc.exit, discoveryRequest]
  have h2 : r.GetContainerConn env name =
      ⟨[.println ("Searching for container " ++ name),
        discoveryRequest ep q0 (stringsReplace name "*" "%"),
        .println ("Container " ++ name ++
          " not found, not running, or you don\x27t have access permissions.")],
        .exit 1⟩ := by
    simp [RancherAPI.GetContainerConn, h1, Proc.emit]
  refine ⟨ep, hstrip, h1, h2, ?_, ?_, ?_, ?_⟩
  · rw [h2]; rfl
  · rw [h2]; rfl
  · rw [h2]; simp [discoveryRequest]
  · rw [h2]; rfl

/-- C4: when the endpoint is non-empty and the data list holds exactly one well-formed
container `c`, `containerURL` issues the discovery request, prints the report line and returns
`E/containers/<id>/` without reading operator input; when the exec request can be built,
the requests of `GetContainerConn` are the discovery request and then a POST to
`E/containers/<id>/?action=execute`, `E` being the endpoint without its trailing `/`. -/
theorem single_match (r : RancherAPI) (env : Env) (name : String) (q0 : Values) (resp : JMap)
    (j : JSON) (c : ContainerMatch)
    (hE : r.Endpoint ≠ "") (hq : env.getQuery = some q0)
    (hresp : env.discovery = .ok resp) (hdata : resp.lookup "data" = some (.array [j]))
    (hj : decodeContainer j = some c) :
    ∃ ep, StripsSlash r.Endpoint ep ∧
      r.containerURL env name =
        ⟨[discoveryRequest ep q0 (stringsReplace name "*" "%"), .println (targetReport c)],
          .ret (ep ++ "/containers/" ++ c.id ++ "/")⟩ ∧
      Event.scan ∉ (r.containerURL env name).trace ∧
      (env.postOk = true →
        (r.GetContainerConn env name).trace.filter Event.isRequest =
          [discoveryRequest ep q0 (stringsReplace name "*" "%"),
            .request "POST" (ep ++ "/containers/" ++ c.id ++ "/?action=execute") none
              (execBody env.termSize.1 env.termSize.2)]) := by
  obtain ⟨ep, hep, hstrip⟩ := formatEndpoint_spec r hE
  obtain ⟨m, rfl, hid, _, htarget⟩ := decodeContainer_sound j c hj
  have h1 : r.containerURL env name =
      ⟨[discoveryRequest ep q0 (stringsReplace name "*" "%"), .println (targetReport c)],
        .ret (ep ++ "/containers/" ++ c.id ++ "/")⟩ := by
    simp [RancherAPI.containerURL, selectContainer, indexAt, hep, hq, hresp, hdata, asArray,
      asObject, htarget, hid, Proc.ret, Proc.emit, discoveryRequest, String.append_assoc]
  refine ⟨ep, hstrip, h1, ?_, ?_⟩
  · rw [h1]; simp [discoveryRequest]
  · intro hpost
    have hslash : ("/" : String) ++ "?action=execute" = "/?action=execute" := rfl
    rw [GetContainerConn_requests r env name _ _ h1 hpost]
    simp [discoveryRequest, Event.isRequest, String.append_assoc, hslash]

/-- C2: when the data list holds `N > 1` well-formed containers `cs` and the operator enters
`i` with `1 ≤ i ≤ N`, `containerURL` prints the candidates in response order, numbered from
1 to `N`, reads the index, reports candidate `i` (the element `i - 1` of the response) and
returns the URL built from its id. -/
theorem select_candidate (r : RancherAPI) (env : Env) (name : String) (q0 : Values)
    (resp : JMap) (data : List JSON) (cs : List ContainerMatch) (i : Nat)
    (hE : r.Endpoint ≠ "") (hq : env.getQuery = some q0)
    (hresp : env.discovery = .ok resp) (hdata : resp.lookup "data" = some (.array data))
    (hwf : List.Forall₂ (fun j c => decodeContainer j = some c) data cs)
    (hN : 1 < cs.length) (hi1 : 1 ≤ i) (hi2 : i ≤ cs.length)
    (hscan : env.scan = some (i : Int)) :
    ∃ ep c, StripsSlash r.Endpoint ep ∧ cs.get? (i - 1) = some c ∧
      r.containerURL env name =
        ⟨[discoveryRequest ep q0 (stringsReplace name "*" "%"),
            .println "We found more than one containers in system:"] ++
          cs.enum.map (fun kc => Event.println (candidateLine (kc.1 + 1) kc.2)) ++
          [.println "--------------------------------------------",
            .print "Which one you wanna use?: ",
            .scan,
            .println (targetReport c)],
          .ret (ep ++ "/containers/" ++ c.id ++ "/")⟩ := by
  obtain ⟨ep, hep, hstrip⟩ := formatEndpoint_spec r hE
  have hlen : data.length = cs.length := hwf.length_eq
  have hlt : i - 1 < cs.length := by omega
  obtain ⟨c, hc⟩ : ∃ c, cs.get? (i - 1) = some c := ⟨cs.get ⟨i - 1, hlt⟩, List.get?_eq_get hlt⟩
  obtain ⟨j, hj, hjc⟩ := forall₂_get? hwf (i - 1) c hc
  obtain ⟨m, rfl, hid, _, htarget⟩ := decodeContainer_sound j c hjc
  refine ⟨ep, c, hstrip, hc, ?_⟩
  have hne : data.length ≠ 0 := by omega
  have hgt : data.length > 1 := by omega
  have hidx : (0 : Int) ≤ (i : Int) - 1 := by omega
  have hnat : ((i : Int) - 1).toNat = i - 1 := by omega
  have hj2 : data[i - 1]? = some (JSON.object m) := by simpa using hj
  simp [RancherAPI.containerURL, selectContainer, indexAt, hep, hq, hresp, hdata, asArray,
    asObject, htarget, hid, hne, hgt, hscan, hidx, hnat, hj2, hi1,
    listCandidates_decoded data cs hwf,
    Proc.ret, Proc.emit, discoveryRequest, String.append_assoc, List.enum]

theorem select_candidate_witness :
    (sampleAPI.Endpoint ≠ "" ∧ List.Forall₂ (fun j c => decodeContainer j = some c) [web1, web2]
      [⟨"1c1", "web-1", "1a1", "10.0.0.5", none⟩,
        ⟨"1c2", "web-2", "1a1", "10.0.0.6", some "192.168.0.1"⟩]) ∧
    ∃ ep c, StripsSlash sampleAPI.Endpoint ep ∧
      [(⟨"1c1", "web-1", "1a1", "10.0.0.5", none⟩ : ContainerMatch),
        ⟨"1c2", "web-2", "1a1", "10.0.0.6", some "192.168.0.1"⟩].get? (2 - 1) = some c ∧
      sampleAPI.containerURL (sampleEnv [web1, web2] (some 2)) "web-*" =
        ⟨[discoveryRequest ep [] (stringsReplace "web-*" "*" "%"),
            .println "We found more than one containers in system:"] ++
          [(⟨"1c1", "web-1", "1a1", "10.0.0.5", none⟩ : ContainerMatch),
            ⟨"1c2", "web-2", "1a1", "10.0.0.6", some "192.168.0.1"⟩].enum.map
              (fun kc => Event.println (candidateLine (kc.1 + 1) kc.2)) ++
          [.println "--------------------------------------------",
            .print "Which one you wanna use?: ",
            .scan,
            .println (targetReport c)],
          .ret (ep ++ "/containers/" ++ c.id ++ "/")⟩ :=
  ⟨⟨by decide, List.Forall₂.cons rfl (List.Forall₂.cons rfl List.Forall₂.nil)⟩,
    select_candidate sampleAPI (sampleEnv [web1, web2] (some 2)) "web-*" []
      [("data", .array [web1, web2])] [web1, web2] _ 2 (by decide) rfl rfl rfl
      (List.Forall₂.cons rfl (List.Forall₂.cons rfl List.Forall₂.nil))
      (by decide) (by decide) (by decide) rfl⟩

theorem single_match_witness :
    (sampleAPI.Endpoint ≠ "" ∧
      decodeContainer web1 = some ⟨"1c1", "web-1", "1a1", "10.0.0.5", none⟩) ∧
    ∃ ep, StripsSlash sampleAPI.Endpoint ep ∧
      Event.scan ∉ (sampleAPI.containerURL (sampleEnv [web1] none) "web-1").trace ∧
      (sampleAPI.GetContainerConn (sampleEnv [web1] none) "web-1").trace.filter Event.isRequest =
        [discoveryRequest ep [] (stringsReplace "web-1" "*" "%"),
          .request "POST" (ep ++ "/containers/" ++ "1c1" ++ "/?action=execute") none
            (execBody 80 24)] :=
  ⟨⟨by decide, rfl⟩,
    let ⟨ep, h1, _, h3, h4⟩ := single_match sampleAPI (sampleEnv [web1] none) "web-1" []
      [("data", .array [web1])] web1 ⟨"1c1", "web-1", "1a1", "10.0.0.5", none⟩
      (by decide) rfl rfl rfl rfl
    ⟨ep, h1, h3, h4 rfl⟩⟩

theorem not_found_witness :
    sampleAPI.Endpoint ≠ "" ∧
    ∃ ep, StripsSlash sampleAPI.Endpoint ep ∧
      sampleAPI.GetContainerConn (sampleEnv [] none) "db-*" =
        ⟨[.println ("Searching for container " ++ "db-*"),
          discoveryRequest ep [] (stringsReplace "db-*" "*" "%"),
          .println ("Container " ++ "db-*" ++
            " not found, not running, or you don\x27t have access permissions.")],
          .exit 1⟩ :=
  ⟨by decide,
    let ⟨ep, h1, _, h3, _⟩ := not_found sampleAPI (sampleEnv [] none) "db-*" []
      [("data", .array [])] (by decide) rfl rfl rfl
    ⟨ep, h1, h3⟩⟩

theorem session_outcome_witness :
    (cleanCloseSession.makeRaw = .ok ⟨7⟩ ∧ malformedSession.makeRaw = .ok ⟨7⟩) ∧
    ((WebTerm.mk none).Run cleanCloseSession).result = .ret () ∧
    ((WebTerm.mk none).Run malformedSession).result = .panic (.error .corruptInput) ∧
    exitStatus (mainTail (WebTerm.mk none) malformedSession).result = some 2 :=
  ⟨⟨rfl, rfl⟩,
    (session_outcome ⟨none⟩ cleanCloseSession ⟨7⟩ rfl).1.2
      ⟨⟨.receive (.closeError 1000 ""), none⟩, rfl, rfl⟩,
    ((session_outcome ⟨none⟩ malformedSession ⟨7⟩ rfl).2.2
      ⟨.decode .corruptInput, some .corruptInput⟩ rfl rfl).2⟩

theorem restore_exactly_once_witness :
    malformedSession.makeRaw = .ok ⟨7⟩ ∧
    ((WebTerm.mk none).Run malformedSession).trace =
      [.makeRaw, .signal (some .corruptInput), .restore (some ⟨7⟩)] :=
  ⟨rfl,
    ((restore_exactly_once ⟨none⟩ malformedSession ⟨7⟩ rfl).1
      ⟨.decode .corruptInput, some .corruptInput⟩ rfl).1⟩

/-- C3, as the code behaves: with the two well-formed candidates `web1` and `web2` listed, the
index 0 and the index 3 both end `containerURL` in the runtime panic of an index out of range
(`data[-1]` and `data[2]` of a list of length 2), after the listing and the prompt; the process
ends with the status of an uncaught panic and no message of the program. -/
theorem selection_out_of_range_panics :
    decodeContainer web1 = some ⟨"1c1", "web-1", "1a1", "10.0.0.5", none⟩ ∧
    decodeContainer web2 = some ⟨"1c2", "web-2", "1a1", "10.0.0.6", some "192.168.0.1"⟩ ∧
    (sampleAPI.containerURL (sampleEnv [web1, web2] (some 0)) "web-*").result
      = .panic (.indexOutOfRange (-1) 2) ∧
    (sampleAPI.containerURL (sampleEnv [web1, web2] (some 3)) "web-*").result
      = .panic (.indexOutOfRange 2 2) ∧
    (sampleAPI.containerURL (sampleEnv [web1, web2] (some 0)) "web-*").trace.getLast?
      = some .scan ∧
    (sampleAPI.containerURL (sampleEnv [web1, web2] (some 3)) "web-*").trace.getLast?
      = some .scan := by
  refine ⟨rfl, rfl, ?_, ?_, ?_, ?_⟩ <;> decide

/-- C8, as the code behaves: the record `web3` carries id, name, accountId and, under
`data.fields`, primaryIpAddress, but no dockerHostIp. Returned alone, `containerURL` panics on
the type assertion of `dockerHostIp` while it builds the report line; returned next to `web1`,
it panics while it builds the listing, before the operator is asked. The record `web1`, which
has the fields at top level and no dockerHostIp either, is reported and selected. -/
theorem nested_record_without_host_panics :
    decodeContainerOptionalHost web3 = some ⟨"1c3", "web-3", "1a1", "10.0.0.7", none⟩ ∧
    sampleAPI.containerURL (sampleEnv [web3] none) "web-3" =
      ⟨[discoveryRequest "https://rancher.server/v1" [] "web-3"], .panic .typeAssertion⟩ ∧
    sampleAPI.containerURL (sampleEnv [web1, web3] (some 1)) "web-*" =
      ⟨[discoveryRequest "https://rancher.server/v1" [] "web-%",
        .println "We found more than one containers in system:",
        .println "[1] web-1, Container ID 1c1 in project 1a1, IP Address 10.0.0.5"],
        .panic .typeAssertion⟩ ∧
    sampleAPI.containerURL (sampleEnv [web1] none) "web-1" =
      ⟨[discoveryRequest "https://rancher.server/v1" [] "web-1",
        .println "Target Container: web-1, ID 1c1 in project 1a1, Addr 10.0.0.5"],
        .ret "https://rancher.server/v1/containers/1c1/"⟩ := by
  refine ⟨rfl, ?_, ?_, ?_⟩ <;> decide

end Cowherd
